import Mathlib

/-!
Verification of the TRS-80 disk-image driver (`trs80_driver.py`) against its
natural-language specification.

The Python source is shallowly embedded below.  Byte buffers are `List Nat`
(each element a byte value 0..255), Python slices are `pySlice`, Python slice
assignment is `pySplice`, and Python `int` values that can become negative
(`granules_needed`, file sizes) are `Int`.  Fallible operations return
`Option` / `Except`, and a Python statement that raises is modelled by an
explicit error constructor.  Bounded `for` loops of the source are modelled by
structural recursion over explicit index lists or a fuel counter that is at
least the source loop's iteration count.
-/

namespace Trs80

/-- Python slice `l[a:b]` (with `0 ≤ a ≤ b`): drop `a` elements, keep `b - a`. -/
def pySlice (l : List Nat) (a b : Nat) : List Nat :=
  (l.drop a).take (b - a)

/-- Python slice assignment `l[pos:pos+len(payload)] = payload`. -/
def pySplice (l : List Nat) (pos : Nat) (payload : List Nat) : List Nat :=
  l.take pos ++ payload ++ l.drop (pos + payload.length)

/-- Python truthiness of an optional byte string: `None` and `b""` are falsy. -/
def pyFalsy : Option (List Nat) → Bool
  | none => true
  | some d => d.isEmpty

/-- Bytes that `str.strip()` removes when the sector is decoded as latin-1:
the ASCII whitespace characters plus U+0085 and U+00A0. -/
def wsByte (b : Nat) : Bool :=
  b = 9 ∨ b = 10 ∨ b = 11 ∨ b = 12 ∨ b = 13 ∨
  b = 28 ∨ b = 29 ∨ b = 30 ∨ b = 31 ∨ b = 32 ∨ b = 0x85 ∨ b = 0xA0

/-- Python `str.strip()` on a latin-1 decoded byte string. -/
def pyStrip (l : List Nat) : List Nat :=
  ((l.dropWhile wsByte).reverse.dropWhile wsByte).reverse

/-- Python `str.upper()` restricted to the ASCII range (the driver only feeds
it ASCII filenames). -/
def upperByte (b : Nat) : Nat :=
  if 97 ≤ b ∧ b ≤ 122 then b - 32 else b

/-- Python `str.lower()` restricted to the ASCII range. -/
def lowerByte (b : Nat) : Nat :=
  if 65 ≤ b ∧ b ≤ 90 then b + 32 else b

/-- Python `s.ljust(n)[:n]`: pad with spaces to length `n`, then truncate. -/
def padTrunc (l : List Nat) (n : Nat) : List Nat :=
  (l ++ List.replicate (n - l.length) 32).take n

/-- Python `content[:file_size]` where `file_size` may be negative
(a negative index counts from the end, clamped at 0), applied only when
`len(content) > file_size` as in the source's truncation step. -/
def pyTruncate (l : List Nat) (n : Int) : List Nat :=
  if n < (l.length : Int) then
    if 0 ≤ n then l.take n.toNat else l.take ((l.length : Int) + n).toNat
  else l

/-! ## JV1 image handler (`class JV1Image`) -/

namespace JV1Image

/-- `JV1Image.read_sector`: flat layout, 10 sectors per track, side 0 only. -/
def read_sector (data : List Nat) (track side sector : Nat) :
    Option (List Nat) :=
  if side ≠ 0 then none
  else if 10 ≤ sector then none
  else
    let offset := (track * 10 + sector) * 256
    if data.length < offset + 256 then none
    else some (pySlice data offset (offset + 256))

/-- `JV1Image.write_sector`: returns the success flag and the updated buffer. -/
def write_sector (data : List Nat) (track side sector : Nat)
    (payload : List Nat) : Bool × List Nat :=
  if side ≠ 0 then (false, data)
  else if 10 ≤ sector then (false, data)
  else if payload.length ≠ 256 then (false, data)
  else
    let offset := (track * 10 + sector) * 256
    if data.length < offset + 256 then (false, data)
    else (true, pySplice data offset payload)

end JV1Image

/-! ## JV3 image handler (`class JV3Image`) -/

namespace JV3Image

/-- Size-code table used for occupied records in `JV3Image._parse_image`
(the `if/elif` chain `{0: 256, 1: 128, 2: 1024, 3: 512}`). -/
def sizeCodeLen (sc : Nat) : Nat :=
  if sc = 0 then 256
  else if sc = 1 then 128
  else if sc = 2 then 1024
  else if sc = 3 then 512
  else 256

/-- Python dict assignment `m[k] = v`: replace an existing binding in place,
otherwise append. -/
def mapInsert (m : List ((Nat × Nat × Nat) × Nat)) (k : Nat × Nat × Nat)
    (v : Nat) : List ((Nat × Nat × Nat) × Nat) :=
  match m with
  | [] => [(k, v)]
  | (k0, v0) :: rest =>
    if k0 = k then (k, v) :: rest else (k0, v0) :: mapInsert rest k v

/-- The `while` loop of `JV3Image._parse_image`.  The `fuel` argument only
bounds the recursion; every iteration advances `offset` by at least 131, so
`fuel = data.length + 1` never runs out before the loop condition fails. -/
def parseLoop (data : List Nat) :
    Nat → Nat → List ((Nat × Nat × Nat) × Nat) → List ((Nat × Nat × Nat) × Nat)
  | 0, _, m => m
  | fuel + 1, offset, m =>
    if data.length ≤ offset then m
    else if data.length < offset + 3 then m
    else
      let track := data.getD offset 0
      let sector := data.getD (offset + 1) 0
      let flags := data.getD (offset + 2) 0
      if track = 0xFF then
        -- free/unused slot: skip 3-byte header plus `128 << size_code` bytes
        parseLoop data fuel (offset + 3 + (128 <<< (flags &&& 0x03))) m
      else
        let side := (flags >>> 4) &&& 1
        let data_len := sizeCodeLen (flags &&& 0x03)
        parseLoop data fuel (offset + 3 + data_len)
          (mapInsert m (track, side, sector) (offset + 3))

/-- `JV3Image._parse_image`: the `(track, side, sector) ↦ offset` map. -/
def sector_map (data : List Nat) : List ((Nat × Nat × Nat) × Nat) :=
  parseLoop data (data.length + 1) 0 []

/-- `JV3Image.read_sector`. -/
def read_sector (data : List Nat) (track side sector : Nat) :
    Option (List Nat) :=
  match (sector_map data).lookup (track, side, sector) with
  | none => none
  | some offset => some (pySlice data offset (offset + 256))

/-- Outcome of calling a method that may raise instead of returning. -/
inductive PyOutcome (α : Type) where
  | ret (a : α)
  | notImplementedError
  deriving DecidableEq

/-- `JV3Image` defines no `write_sector`, so a call resolves to the base-class
`DiskImage.write_sector`, whose body is `raise NotImplementedError`.  The
buffer is returned untouched because the method raises before any mutation. -/
def write_sector (data : List Nat) (_track _side _sector : Nat)
    (_payload : List Nat) : PyOutcome Bool × List Nat :=
  (PyOutcome.notImplementedError, data)

end JV3Image

/-! ## DMK image handler (`class DMKImage`) -/

namespace DMKImage

/-- The inner `for k in range(50)` scan for a data address mark (0xFB or
0xF8).  Returns the start of the 256-byte payload.  `r` counts the remaining
iterations. -/
def findDAM (data : List Nat) (search_start : Nat) : Nat → Nat → Option Nat
  | _, 0 => none
  | k, r + 1 =>
    let b := data.getD (search_start + k) 0
    if b = 0xFB ∨ b = 0xF8 then some (search_start + k + 1)
    else findDAM data search_start (k + 1) r

/-- The `for i in range(64)` IDAM-pointer walk shared verbatim by
`DMKImage.read_sector` and `DMKImage.write_sector` (the source inlines the
same loop in both methods; only the action taken at the found payload
differs).  Returns the absolute offset of the sector payload. -/
def locateLoop (data : List Nat) (track_start track sector : Nat) :
    Nat → Nat → Option Nat
  | _, 0 => none
  | i, r + 1 =>
    let ptr_offset := track_start + i * 2
    let ptr := data.getD ptr_offset 0 + ((data.getD (ptr_offset + 1) 0) <<< 8)
    if ptr = 0 then none
    else
      let idam_offset := ptr &&& 0x3FFF
      let abs_idam := track_start + idam_offset
      if data.length < abs_idam + 6 then
        locateLoop data track_start track sector (i + 1) r
      else
        let s_track := data.getD (abs_idam + 1) 0
        let s_sector := data.getD (abs_idam + 3) 0
        if s_sector = sector ∧ s_track = track then
          match findDAM data (abs_idam + 7) 0 50 with
          | some ds => some ds
          | none => locateLoop data track_start track sector (i + 1) r
        else locateLoop data track_start track sector (i + 1) r

/-- Common sector locator of `DMKImage.read_sector` / `write_sector`:
side check, track offset computation, then the IDAM walk. -/
def locate (data : List Nat) (track_len : Nat) (single_sided : Bool)
    (track side sector : Nat) : Option Nat :=
  if single_sided ∧ 0 < side then none
  else
    let track_idx := if single_sided then track else track * 2 + side
    let track_start := 16 + track_idx * track_len
    if data.length ≤ track_start then none
    else locateLoop data track_start track sector 0 64

/-- `DMKImage.read_sector`. -/
def read_sector (data : List Nat) (track_len : Nat) (single_sided : Bool)
    (track side sector : Nat) : Option (List Nat) :=
  (locate data track_len single_sided track side sector).map
    (fun ds => pySlice data ds (ds + 256))

/-- `DMKImage.write_sector` (checks the payload length first, then runs the
same locator and overwrites the payload in place). -/
def write_sector (data : List Nat) (track_len : Nat) (single_sided : Bool)
    (track side sector : Nat) (payload : List Nat) : Bool × List Nat :=
  if payload.length ≠ 256 then (false, data)
  else
    match locate data track_len single_sided track side sector with
    | none => (false, data)
    | some ds => (true, pySplice data ds payload)

end DMKImage

/-! ## Format detection (`detect_format`) -/

/-- Result of `detect_format`.  `indexError` models the `IndexError` Python
raises when a file named `.dmk` is shorter than 4 bytes, so that
`header[1]`..`header[3]` cannot all be read. -/
inductive DetectOut where
  | dmk
  | jv1
  | indexError
  deriving DecidableEq

/-- Python `filename.lower().endswith(".dmk")`. -/
def endsWithDmkLower (filename : List Nat) : Bool :=
  (filename.map lowerByte).reverse.take 4 = [0x6B, 0x6D, 0x64, 0x2E]

/-- `detect_format`: `filename` and the first 16 file bytes (`header`).
The JV3 probe in the source is a `pass` and decides nothing. -/
def detect_format (filename header : List Nat) : DetectOut :=
  if endsWithDmkLower filename then
    if header.length < 4 then DetectOut.indexError
    else
      let num_tracks := header.getD 1 0
      let track_len := header.getD 2 0 + ((header.getD 3 0) <<< 8)
      if 0 < num_tracks ∧ num_tracks ≤ 100 ∧ 0 < track_len ∧ track_len < 20000
      then DetectOut.dmk
      else DetectOut.jv1
  else DetectOut.jv1

/-! ## TRSDOS filesystem layer (`class TRSDOSFileSystem`)

The filesystem methods use the underlying image only through
`read_sector` / `write_sector` / `save`, so they are embedded relative to an
abstract sector interface `DiskOps σ` over an image-state type `σ`.
`read_sector` mutates nothing in all three handlers, so it is a pure
function of the state.  `save` writes the buffer to the backing file and
leaves the buffer itself unchanged; for the JV1 instantiation it is the
identity on the in-memory state. -/

/-- The sector interface a `TRSDOSFileSystem` sees. -/
structure DiskOps (σ : Type) where
  read_sector : σ → Nat → Nat → Nat → Option (List Nat)
  write_sector : σ → Nat → Nat → Nat → List Nat → Bool × σ
  save : σ → σ

/-- The JV1-backed instantiation: the state is the flat image buffer. -/
def jv1Ops : DiskOps (List Nat) where
  read_sector := JV1Image.read_sector
  write_sector := JV1Image.write_sector
  save := id

/-- The analysis results `_analyze` caches on the filesystem object, as far
as the file operations consult them.  `newdosRange` is true when
`system_type` is `"NEWDOS/80 (System)"` or `"NEWDOS/80 (Track 9)"`. -/
structure FSConfig where
  dir_track : Nat
  dir_sector_offset : Nat
  newdosRange : Bool

/-- First directory sector scanned (`start_sector` in the source). -/
def FSConfig.scanStart (cfg : FSConfig) : Nat :=
  if cfg.newdosRange then 10 else 2 + cfg.dir_sector_offset

/-- One past the last directory sector scanned (`end_sector`). -/
def FSConfig.scanEnd (cfg : FSConfig) : Nat :=
  if cfg.newdosRange then 18 else 18 + cfg.dir_sector_offset

/-- The list `range(start_sector, end_sector)` of directory sectors. -/
def sectorRange (cfg : FSConfig) : List Nat :=
  List.range' cfg.scanStart (cfg.scanEnd - cfg.scanStart)

/-- `TRSDOSFileSystem._get_allocation_info`: always
`(sectors_per_granule, granules_per_track) = (5, 2)` (the geometry branch is
a `pass`). -/
def get_allocation_info : Nat × Nat := (5, 2)

/-- Filesystem-level failures.  `noFreeSlots`, `tooFragmented` and `diskFull`
model the three `OSError(28, ...)` raises of `write_file`; `readError` models
`OSError(5, "Read Error")`; `typeError` models the `TypeError` from
`bytearray(None)` when the directory sector re-read returns `None`;
`indexError` models an out-of-range `bytearray` item assignment. -/
inductive FsErr where
  | noFreeSlots
  | readError
  | tooFragmented
  | diskFull
  | typeError
  | indexError
  deriving DecidableEq

instance {ε α : Type} [DecidableEq ε] [DecidableEq α] :
    DecidableEq (Except ε α) := fun a b =>
  match a, b with
  | Except.ok x, Except.ok y =>
    if h : x = y then Decidable.isTrue (by rw [h])
    else Decidable.isFalse (by intro hc; cases hc; exact h rfl)
  | Except.error x, Except.error y =>
    if h : x = y then Decidable.isTrue (by rw [h])
    else Decidable.isFalse (by intro hc; cases hc; exact h rfl)
  | Except.ok _, Except.error _ => Decidable.isFalse (by intro hc; cases hc)
  | Except.error _, Except.ok _ => Decidable.isFalse (by intro hc; cases hc)

/-- The skip test at the head of the directory scans of `read_file` and
`delete_file`: `attr == 0 or attr == 0xFF or (attr & 0x80)`. -/
def entrySkipped (entry : List Nat) : Bool :=
  let attr := entry.getD 0 0
  attr = 0 ∨ attr = 0xFF ∨ attr &&& 0x80 ≠ 0

/-- The string `f"{name}/{ext}"` a directory entry decodes to (latin-1 is a
byte-transparent encoding, so the comparison is on byte lists). -/
def entryFullName (entry : List Nat) : List Nat :=
  pyStrip (pySlice entry 5 13) ++ [0x2F] ++ pyStrip (pySlice entry 13 16)

/-- Inner loop `for i in range(0, 256, 32)` of the entry scan, over the list
of entry numbers `j` (`i = j * 32`).  Returns `(offset, entry)`. -/
def findEntryInSector (d filename : List Nat) :
    List Nat → Option (Nat × List Nat)
  | [] => none
  | j :: rest =>
    let i := j * 32
    let entry := pySlice d i (i + 32)
    if entrySkipped entry then findEntryInSector d filename rest
    else if entryFullName entry = filename then some (i, entry)
    else findEntryInSector d filename rest

/-- Outer loop of the directory-entry scan shared verbatim by
`read_file`, `delete_file` (and, with a different inner test, `write_file`):
the source inlines the same sector loop in each method.  Returns
`(sector, offset, entry)`. -/
def findTargetLoop {σ : Type} (ops : DiskOps σ) (cfg : FSConfig) (st : σ)
    (filename : List Nat) : List Nat → Option (Nat × Nat × List Nat)
  | [] => none
  | sec :: rest =>
    match ops.read_sector st cfg.dir_track 0 sec with
    | none => findTargetLoop ops cfg st filename rest
    | some d =>
      if d.isEmpty then findTargetLoop ops cfg st filename rest
      else
        match findEntryInSector d filename (List.range 8) with
        | some (i, e) => some (sec, i, e)
        | none => findTargetLoop ops cfg st filename rest

/-- The directory-entry lookup of `read_file` / `delete_file`. -/
def find_target {σ : Type} (ops : DiskOps σ) (cfg : FSConfig) (st : σ)
    (filename : List Nat) : Option (Nat × Nat × List Nat) :=
  findTargetLoop ops cfg st filename (sectorRange cfg)

/-- The `total_sectors_allocated` loop of `read_file` / `list_files`
(the source inlines the identical computation in both): walk up to five
extents, stop at track byte `0xFF` or `0xFE`, sum
`count * sectors_per_granule`. -/
def totalSectorsLoop (entry : List Nat) (spg : Nat) : List Nat → Nat
  | [] => 0
  | k :: rest =>
    let off := 22 + k * 2
    if 32 ≤ off then 0
    else
      let track := entry.getD off 0
      if track = 0xFF ∨ track = 0xFE then 0
      else
        let info := entry.getD (off + 1) 0
        ((info &&& 0x1F) + 1) * spg + totalSectorsLoop entry spg rest

/-- `total_sectors_allocated` for a directory entry. -/
def totalSectorsAllocated (entry : List Nat) (spg : Nat) : Nat :=
  totalSectorsLoop entry spg [0, 1, 2, 3, 4]

/-- The file-size computation shared by `read_file` and `list_files`
(inlined identically in both methods of the source): the dual EOF rule. -/
def fileSizeOf (entry : List Nat) (spg : Nat) : Int :=
  let eof_low := entry.getD 3 0
  let eof_mid := entry.getD 20 0
  let eof_high := entry.getD 21 0
  if eof_low = 0 then
    let last_sector_offset := (eof_high <<< 8) ||| eof_mid
    let total := totalSectorsAllocated entry spg
    if 0 < total then
      ((total : Int) - 1) * 256 + ((last_sector_offset : Int) + 1)
    else 0
  else
    let raw_eof := (eof_high <<< 16) ||| (eof_mid <<< 8) ||| eof_low
    (raw_eof : Int) - 255

/-- Start sector of granule `cg` within its track (`start_sector`
computation inlined identically in `read_file` and `write_file`):
granule 0 → 0, granule 1 → 5, granule `g > 1` → `g * sectors_per_granule`. -/
def granuleStartSector (cg spg : Nat) : Nat :=
  if cg = 1 then 5 else if 1 < cg then cg * spg else 0

/-- Innermost read loop of `read_file`: `sectors_per_granule` consecutive
sectors, substituting 256 zero bytes when the read is falsy. -/
def readSectorsLoop {σ : Type} (ops : DiskOps σ) (st : σ)
    (track start_sector : Nat) : List Nat → List Nat
  | [] => []
  | s :: rest =>
    let o := ops.read_sector st track 0 (start_sector + s)
    (if pyFalsy o then List.replicate 256 0 else o.getD []) ++
      readSectorsLoop ops st track start_sector rest

/-- Granule loop of `read_file` for one extent. -/
def readGranulesLoop {σ : Type} (ops : DiskOps σ) (st : σ)
    (track start_granule spg : Nat) : List Nat → List Nat
  | [] => []
  | g :: rest =>
    let cg := start_granule + g
    readSectorsLoop ops st track (granuleStartSector cg spg)
      (List.range spg) ++
      readGranulesLoop ops st track start_granule spg rest

/-- Extent loop of `read_file` (`for i in range(0, 5)`, with the dead
`offset >= 32` guard of the source retained). -/
def readExtentsLoop {σ : Type} (ops : DiskOps σ) (st : σ)
    (entry : List Nat) (spg : Nat) : List Nat → List Nat
  | [] => []
  | k :: rest =>
    let off := 22 + k * 2
    if 32 ≤ off then []
    else
      let track := entry.getD off 0
      if track = 0xFF then []
      else if track = 0xFE then []
      else
        let info := entry.getD (off + 1) 0
        let start_granule := (info >>> 5) &&& 0x07
        let count := (info &&& 0x1F) + 1
        readGranulesLoop ops st track start_granule spg (List.range count) ++
          readExtentsLoop ops st entry spg rest

/-- `TRSDOSFileSystem.read_file`. -/
def read_file {σ : Type} (ops : DiskOps σ) (cfg : FSConfig) (st : σ)
    (filename : List Nat) : Option (List Nat) :=
  match find_target ops cfg st filename with
  | none => none
  | some (_, _, entry) =>
    let spg := get_allocation_info.1
    let file_size := fileSizeOf entry spg
    let content := readExtentsLoop ops st entry spg [0, 1, 2, 3, 4]
    some (pyTruncate content file_size)

/-- The GAT-freeing granule loop of `delete_file`
(`gat[track * granules_per_track + granule] = 0xFF`, guarded by the GAT
length). -/
def freeGranulesLoop (gat : List Nat) (track gpt start_granule : Nat) :
    List Nat → List Nat
  | [] => gat
  | g :: rest =>
    let gat_idx := track * gpt + (start_granule + g)
    let gat2 := if gat_idx < gat.length then gat.set gat_idx 0xFF else gat
    freeGranulesLoop gat2 track gpt start_granule rest

/-- The extent loop of `delete_file` step 2 (`for i in range(0, 5)`, no
`offset >= 32` guard in this copy of the loop). -/
def freeExtentsLoop (entry : List Nat) (gpt : Nat) (gat : List Nat) :
    List Nat → List Nat
  | [] => gat
  | k :: rest =>
    let off := 22 + k * 2
    let track := entry.getD off 0
    if track = 0xFF then gat
    else if track = 0xFE then gat
    else
      let info := entry.getD (off + 1) 0
      let start_granule := (info >>> 5) &&& 0x07
      let count := (info &&& 0x1F) + 1
      freeExtentsLoop entry gpt
        (freeGranulesLoop gat track gpt start_granule (List.range count)) rest

/-- `TRSDOSFileSystem.delete_file`.  Returns the Python result (or the
exception that propagates) together with the image state. -/
def delete_file {σ : Type} (ops : DiskOps σ) (cfg : FSConfig) (st : σ)
    (filename : List Nat) : Except FsErr Bool × σ :=
  match find_target ops cfg st filename with
  | none => (Except.ok false, st)
  | some (sec, i, entry) =>
    let gpt := get_allocation_info.2
    let gatRead := ops.read_sector st cfg.dir_track 0 cfg.dir_sector_offset
    if pyFalsy gatRead then (Except.ok false, st)
    else
      let gat := freeExtentsLoop entry gpt (gatRead.getD []) [0, 1, 2, 3, 4]
      let st1 :=
        (ops.write_sector st cfg.dir_track 0 cfg.dir_sector_offset gat).2
      match ops.read_sector st1 cfg.dir_track 0 sec with
      | none => (Except.error FsErr.typeError, st1)
      | some d =>
        if d.length ≤ i then (Except.error FsErr.indexError, st1)
        else
          let st2 := (ops.write_sector st1 cfg.dir_track 0 sec (d.set i 0)).2
          (Except.ok true, ops.save st2)

/-! ### Allocation engine (step 2 of `write_file`) -/

/-- State at the exit of the allocation scan.  `frag` is the
`raise OSError(28, "Disk full or too fragmented (Max 5 extents)")`;
`done` carries the loop variables as they stand when the `for` loop ends
(normally or through a `break`): the working GAT copy, the closed extents,
`current_track`, `current_start` (Python ints, initially `-1`),
`current_count` and `granules_needed` (which can go negative). -/
inductive AllocOut where
  | frag
  | done (gat : List Nat) (exts : List (Nat × Nat × Nat)) (ct cs : Int)
      (cc : Nat) (needed : Int)
  deriving DecidableEq

/-- The `for i in range(len(gat))` first-fit scan of `write_file`.
`fuel` only bounds the recursion; the loop itself stops at
`i = gat.length` (`List.set` keeps the length constant, so the range is that
of the original GAT).  Extents are appended as `(track, start, count)`
triples; the track and start are cast from the loop's ints at the append,
where `current_count > 0` guarantees they are the non-negative values of a
started run. -/
def allocLoop (dt gpt : Nat) :
    Nat → Nat → List Nat → List (Nat × Nat × Nat) → Int → Int → Nat → Int →
      AllocOut
  | 0, _, gat, exts, ct, cs, cc, needed => AllocOut.done gat exts ct cs cc needed
  | fuel + 1, i, gat, exts, ct, cs, cc, needed =>
    if gat.length ≤ i then AllocOut.done gat exts ct cs cc needed
    else
      let track := i / gpt
      let granule := i % gpt
      if track = dt then allocLoop dt gpt fuel (i + 1) gat exts ct cs cc needed
      else if track = 0 then
        allocLoop dt gpt fuel (i + 1) gat exts ct cs cc needed
      else if gat.getD i 0 = 0xFF then
        if ct = (track : Int) ∧ cs + (cc : Int) = (granule : Int) then
          -- contiguous in same track
          if needed - 1 = 0 then
            AllocOut.done (gat.set i 0xFE) exts ct cs (cc + 1) (needed - 1)
          else
            allocLoop dt gpt fuel (i + 1) (gat.set i 0xFE) exts ct cs (cc + 1)
              (needed - 1)
        else
          if 0 < cc then
            if 5 ≤ (exts ++ [(ct.toNat, cs.toNat, cc)]).length then
              if 0 < needed then AllocOut.frag
              else AllocOut.done gat (exts ++ [(ct.toNat, cs.toNat, cc)]) ct cs
                cc needed
            else
              if needed - 1 = 0 then
                AllocOut.done (gat.set i 0xFE)
                  (exts ++ [(ct.toNat, cs.toNat, cc)]) (track : Int)
                  (granule : Int) 1 (needed - 1)
              else
                allocLoop dt gpt fuel (i + 1) (gat.set i 0xFE)
                  (exts ++ [(ct.toNat, cs.toNat, cc)]) (track : Int)
                  (granule : Int) 1 (needed - 1)
          else
            if needed - 1 = 0 then
              AllocOut.done (gat.set i 0xFE) exts (track : Int) (granule : Int)
                1 (needed - 1)
            else
              allocLoop dt gpt fuel (i + 1) (gat.set i 0xFE) exts (track : Int)
                (granule : Int) 1 (needed - 1)
      else allocLoop dt gpt fuel (i + 1) gat exts ct cs cc needed

/-- Result of the allocation step of `write_file`. -/
inductive AllocResult where
  | tooFragmented
  | diskFull
  | ok (exts : List (Nat × Nat × Nat)) (gat : List Nat)
  deriving DecidableEq

/-- The complete allocation step: the scan, the post-loop append of the last
run, and the final `granules_needed > 0` disk-full check. -/
def allocate (dt gpt : Nat) (gat : List Nat) (needed : Int) : AllocResult :=
  match allocLoop dt gpt gat.length 0 gat [] (-1) (-1) 0 needed with
  | AllocOut.frag => AllocResult.tooFragmented
  | AllocOut.done gat2 exts ct cs cc needed2 =>
    let exts2 := if 0 < cc then exts ++ [(ct.toNat, cs.toNat, cc)] else exts
    if 0 < needed2 then AllocResult.diskFull else AllocResult.ok exts2 gat2

/-! ### `write_file` -/

/-- Python `filename.split('/', 1)` followed by the `else` default
`ext = "   "` when no slash occurs. -/
def splitName (filename : List Nat) : List Nat × List Nat :=
  match filename.splitOn 0x2F with
  | [] => (filename, [32, 32, 32])
  | [n] => (n, [32, 32, 32])
  | n :: rest => (n, (rest.intersperse [0x2F]).flatten)

/-- Free-slot test of `write_file` step 1: `attr == 0` for the entry at
offset `i = j * 32`. -/
def findFreeSlotInSector (d : List Nat) : List Nat → Option Nat
  | [] => none
  | j :: rest =>
    let i := j * 32
    if d.getD i 0 = 0 then some i else findFreeSlotInSector d rest

/-- Sector loop of the free-slot scan.  Returns `(sector, offset)`. -/
def findFreeSlotLoop {σ : Type} (ops : DiskOps σ) (cfg : FSConfig) (st : σ) :
    List Nat → Option (Nat × Nat)
  | [] => none
  | sec :: rest =>
    match ops.read_sector st cfg.dir_track 0 sec with
    | none => findFreeSlotLoop ops cfg st rest
    | some d =>
      if d.isEmpty then findFreeSlotLoop ops cfg st rest
      else
        match findFreeSlotInSector d (List.range 8) with
        | some i => some (sec, i)
        | none => findFreeSlotLoop ops cfg st rest

/-- Innermost data-write loop of `write_file` step 3: one granule's sectors;
`break` once the content is exhausted; the final chunk is zero-padded to
256 bytes. -/
def writeSectorsLoop {σ : Type} (ops : DiskOps σ) (track start_sector : Nat)
    (content : List Nat) : List Nat → σ → Nat → σ × Nat
  | [], st, co => (st, co)
  | s :: rest, st, co =>
    if content.length ≤ co then (st, co)
    else
      let chunk0 := pySlice content co (co + 256)
      let chunk := chunk0 ++ List.replicate (256 - chunk0.length) 0
      let st2 := (ops.write_sector st track 0 (start_sector + s) chunk).2
      writeSectorsLoop ops track start_sector content rest st2 (co + 256)

/-- Granule loop of `write_file` step 3. -/
def writeGranulesLoop {σ : Type} (ops : DiskOps σ) (track start_granule spg : Nat)
    (content : List Nat) : List Nat → σ → Nat → σ × Nat
  | [], st, co => (st, co)
  | g :: rest, st, co =>
    let cg := start_granule + g
    let r := writeSectorsLoop ops track (granuleStartSector cg spg) content
      (List.range spg) st co
    writeGranulesLoop ops track start_granule spg content rest r.1 r.2

/-- Extent loop of `write_file` step 3. -/
def writeExtentsLoop {σ : Type} (ops : DiskOps σ) (spg : Nat)
    (content : List Nat) : List (Nat × Nat × Nat) → σ → Nat → σ
  | [], st, _ => st
  | (track, start_granule, count) :: rest, st, co =>
    let r := writeGranulesLoop ops track start_granule spg content
      (List.range count) st co
    writeExtentsLoop ops spg content rest r.1 r.2

/-- A sequence of Python `bytearray` item assignments `d[i] = v`, failing
with `IndexError` when an index is out of range. -/
def pySets (d : List Nat) : List (Nat × Nat) → Except FsErr (List Nat)
  | [] => Except.ok d
  | (i, v) :: rest =>
    if i < d.length then pySets (d.set i v) rest
    else Except.error FsErr.indexError

/-- The `(index, value)` assignments of `write_file` step 5, in source
order: clear the 32 entry bytes, attribute `0x10`, name, extension, the
dual-format EOF bytes, the extent records (one pair per allocated extent —
the source does not bound this loop by the five extent slots), and the
`0xFF` terminator when fewer than five extents were used. -/
def entrySets (off : Nat) (nameP extP : List Nat) (contentLen : Nat)
    (exts : List (Nat × Nat × Nat)) : List (Nat × Nat) :=
  let rba := contentLen - 1
  let raw_eof := rba + 255
  let eof_low := raw_eof &&& 0xFF
  (List.range 32).map (fun k => (off + k, 0)) ++
  [(off, 0x10)] ++
  (List.range 8).map (fun k => (off + 5 + k, nameP.getD k 0)) ++
  (List.range 3).map (fun k => (off + 13 + k, extP.getD k 0)) ++
  (if eof_low = 0 then
    [(off + 3, 0), (off + 20, rba &&& 0xFF), (off + 21, (rba >>> 8) &&& 0xFF)]
  else
    [(off + 3, eof_low), (off + 20, (raw_eof >>> 8) &&& 0xFF),
      (off + 21, (raw_eof >>> 16) &&& 0xFF)]) ++
  (exts.enum.map (fun e =>
    [(off + 22 + e.1 * 2, e.2.1),
     (off + 22 + e.1 * 2 + 1,
       ((e.2.2.1 &&& 0x07) <<< 5) ||| ((e.2.2.2 - 1) &&& 0x1F))])).flatten ++
  (if exts.length < 5 then [(off + 22 + exts.length * 2, 0xFF)] else [])

/-- `write_file` steps 2-6: granule allocation against the GAT sector read
in step 2, then the data writes, the GAT write-back, the directory-entry
construction and `save`.  Factored out of `writeFileAfterDelete` so that the
allocation scrutinee ranges over the variable `gatSec`. -/
def writeFileAlloc {σ : Type} (ops : DiskOps σ) (cfg : FSConfig) (st1 : σ)
    (nameP extP content : List Nat) (slotSec off : Nat) (gatSec : List Nat) :
    Except FsErr Bool × σ :=
  let spg := get_allocation_info.1
  let gpt := get_allocation_info.2
  let total_sectors := (content.length + 255) / 256
  let total_granules := (total_sectors + spg - 1) / spg
  match allocate cfg.dir_track gpt gatSec (total_granules : Int) with
  | AllocResult.tooFragmented => (Except.error FsErr.tooFragmented, st1)
  | AllocResult.diskFull => (Except.error FsErr.diskFull, st1)
  | AllocResult.ok exts gat2 =>
    let st2 := writeExtentsLoop ops spg content exts st1 0
    let st3 :=
      (ops.write_sector st2 cfg.dir_track 0 cfg.dir_sector_offset gat2).2
    match ops.read_sector st3 cfg.dir_track 0 slotSec with
    | none => (Except.error FsErr.typeError, st3)
    | some d =>
      match pySets d (entrySets off nameP extP content.length exts) with
      | Except.error e => (Except.error e, st3)
      | Except.ok d2 =>
        let st4 := (ops.write_sector st3 cfg.dir_track 0 slotSec d2).2
        (Except.ok true, ops.save st4)

/-- `write_file` steps 1-6 after the initial `delete_file` call, starting
from the state that call left behind. -/
def writeFileAfterDelete {σ : Type} (ops : DiskOps σ) (cfg : FSConfig)
    (st1 : σ) (filename content : List Nat) : Except FsErr Bool × σ :=
  let nameExt := splitName filename
  let nameP := (padTrunc nameExt.1 8).map upperByte
  let extP := (padTrunc nameExt.2 3).map upperByte
  match findFreeSlotLoop ops cfg st1 (sectorRange cfg) with
  | none => (Except.error FsErr.noFreeSlots, st1)
  | some (slotSec, off) =>
    let gatRead := ops.read_sector st1 cfg.dir_track 0 cfg.dir_sector_offset
    if pyFalsy gatRead then (Except.error FsErr.readError, st1)
    else writeFileAlloc ops cfg st1 nameP extP content slotSec off
      (gatRead.getD [])

/-- `TRSDOSFileSystem.write_file`: delete any existing entry first (an
exception from the delete propagates), then create the file. -/
def write_file {σ : Type} (ops : DiskOps σ) (cfg : FSConfig) (st : σ)
    (filename content : List Nat) : Except FsErr Bool × σ :=
  match delete_file ops cfg st filename with
  | (Except.error e, st1) => (Except.error e, st1)
  | (Except.ok _, st1) => writeFileAfterDelete ops cfg st1 filename content

/-! ### `list_files` -/

/-- One record of the `list_files` result. -/
structure FileRec where
  name : List Nat
  size : Int
  attr : Nat
  invisible : Bool
  system : Bool
  deriving DecidableEq

/-- The `is_valid_name` heuristic of `list_files`: non-empty, first byte
ASCII alphanumeric, all bytes printable. -/
def isValidName (b : List Nat) : Bool :=
  match b with
  | [] => false
  | b0 :: _ =>
    decide ((65 ≤ b0 ∧ b0 ≤ 90) ∨ (97 ≤ b0 ∧ b0 ≤ 122) ∨ (48 ≤ b0 ∧ b0 ≤ 57))
      && b.all (fun x => decide (32 ≤ x ∧ x ≤ 126))

/-- Entry loop of `list_files` for one directory sector. -/
def listEntriesLoop (d : List Nat) (spg : Nat) : List Nat → List FileRec
  | [] => []
  | j :: rest =>
    let entry := pySlice d (j * 32) (j * 32 + 32)
    let attr := entry.getD 0 0
    if attr &&& 0x10 = 0 then listEntriesLoop d spg rest
    else if attr &&& 0x80 ≠ 0 then listEntriesLoop d spg rest
    else if attr = 0 ∨ attr = 0xFF then listEntriesLoop d spg rest
    else
      let raw_name := pySlice entry 5 13
      let raw_ext := pySlice entry 13 16
      if ¬ isValidName raw_name then listEntriesLoop d spg rest
      else if ¬ raw_ext.all (fun x => decide (32 ≤ x ∧ x ≤ 126)) then
        listEntriesLoop d spg rest
      else
        { name := pyStrip raw_name ++ [0x2F] ++ pyStrip raw_ext
          size := fileSizeOf entry spg
          attr := attr
          invisible := attr &&& 0x08 ≠ 0
          system := attr &&& 0x40 ≠ 0 } :: listEntriesLoop d spg rest

/-- Sector loop of `list_files`. -/
def listFilesLoop {σ : Type} (ops : DiskOps σ) (cfg : FSConfig) (st : σ) :
    List Nat → List FileRec
  | [] => []
  | sec :: rest =>
    match ops.read_sector st cfg.dir_track 0 sec with
    | none => listFilesLoop ops cfg st rest
    | some d =>
      if d.isEmpty then listFilesLoop ops cfg st rest
      else listEntriesLoop d get_allocation_info.1 (List.range 8) ++
        listFilesLoop ops cfg st rest

/-- `TRSDOSFileSystem.list_files`. -/
def list_files {σ : Type} (ops : DiskOps σ) (cfg : FSConfig) (st : σ) :
    List FileRec :=
  listFilesLoop ops cfg st (sectorRange cfg)

/-! ## Concrete sector stores for the filesystem scenarios

The filesystem methods are generic over the sector interface, so the
concrete scenarios instantiate `DiskOps` with a small keyed sector store
that behaves like a three-track single-sided disk (tracks 0-2, ten 256-byte
sectors per track): reads of a backed `(track, side, sector)` address return
its payload, in-place 256-byte writes to a backed address succeed, and any
other access fails, exactly as the JV1 handler behaves on such an image.
Track 2 is the directory track: sector 0 is the GAT (first byte `0xFE`, a
valid GAT marker), sector 1 the HIT, sector 2 the first directory sector,
holding one system file `BOOT/SYS`.  With this content the analyzer's track
scan (`_scan_for_directory`) selects track 2 with sector offset 0, which is
the `FSConfig` used below.  In the GAT, track 0 (boot) and track 2
(directory) are reserved (`0xFE`), track 1 is free (`0xFF`), and the
positions of the 125 tracks the disk does not have are reserved, as on a
real formatted disk. -/

/-- Lookup in a keyed sector store. -/
def storeRead (st : List ((Nat × Nat × Nat) × List Nat))
    (track side sector : Nat) : Option (List Nat) :=
  st.lookup (track, side, sector)

/-- Replace the payload of a backed address. -/
def storeReplace (st : List ((Nat × Nat × Nat) × List Nat))
    (k : Nat × Nat × Nat) (payload : List Nat) :
    List ((Nat × Nat × Nat) × List Nat) :=
  match st with
  | [] => []
  | (k0, v0) :: rest =>
    if k0 = k then (k0, payload) :: rest
    else (k0, v0) :: storeReplace rest k payload

/-- Sector write against the store: a 256-byte write to a backed address
overwrites it in place; anything else is refused and leaves the store
unchanged (the behavior of the concrete handlers on such an address). -/
def storeWrite (st : List ((Nat × Nat × Nat) × List Nat))
    (track side sector : Nat) (payload : List Nat) :
    Bool × List ((Nat × Nat × Nat) × List Nat) :=
  if (st.lookup (track, side, sector)).isSome ∧ payload.length = 256 then
    (true, storeReplace st (track, side, sector) payload)
  else (false, st)

/-- The store-backed sector interface. -/
def storeOps : DiskOps (List ((Nat × Nat × Nat) × List Nat)) where
  read_sector := storeRead
  write_sector := storeWrite
  save := id

/-- An all-zero sector. -/
def zsec : List Nat := List.replicate 256 0

/-- Directory entry of `BOOT/SYS`: in use (`0x10`), EOF bytes
3/20/21 = 0/0x34/0x00 (RBA format), one 1-granule extent on track 0,
then the `0xFF` terminator. -/
def bootEntry : List Nat :=
  [0x10, 0, 0, 0, 0,
   66, 79, 79, 84, 32, 32, 32, 32, 83, 89, 83,
   0, 0, 0, 0, 0x34, 0, 0, 0x00, 0xFF, 0, 0, 0, 0, 0, 0, 0]

/-- GAT sector of the base disk. -/
def gat0 : List Nat :=
  [0xFE, 0xFE, 0xFF, 0xFF, 0xFE, 0xFE] ++ List.replicate 250 0xFE

/-- The base three-track disk as a sector store. -/
def store0 : List ((Nat × Nat × Nat) × List Nat) :=
  ((List.range 10).map fun s => ((0, 0, s), zsec)) ++
  ((List.range 10).map fun s => ((1, 0, s), zsec)) ++
  [((2, 0, 0), gat0), ((2, 0, 1), zsec),
   ((2, 0, 2), bootEntry ++ List.replicate 224 0)] ++
  ((List.range' 3 7).map fun s => ((2, 0, s), zsec))

/-- Analysis results for the three-track disks: directory track 2,
0-based sectors, ordinary (non-NEWDOS) scan range. -/
def cfg0 : FSConfig := ⟨2, 0, false⟩

/-- `"BOOT/SYS"` as bytes. -/
def bootName : List Nat := [66, 79, 79, 84, 0x2F, 83, 89, 83]

/-- `"TEST/TXT"` as bytes. -/
def testName : List Nat := [84, 69, 83, 84, 0x2F, 84, 88, 84]

/-- `b"HELLO"`. -/
def helloBytes : List Nat := [72, 69, 76, 76, 79]

/-- `"EMPTY/DAT"` as bytes. -/
def emptyName : List Nat := [69, 77, 80, 84, 89, 0x2F, 68, 65, 84]

/-- `"OLD/DAT"` as bytes. -/
def oldName : List Nat := [79, 76, 68, 0x2F, 68, 65, 84]

/-- `"NEW/DAT"` as bytes. -/
def newName : List Nat := [78, 69, 87, 0x2F, 68, 65, 84]

/-- Directory entry of `OLD/DAT`: in use, offset-format EOF for a 5-byte
file (bytes 3/20/21 = 0x03/0x01/0x00), one 1-granule extent on track 1
(granule 0), then the terminator. -/
def oldEntry : List Nat :=
  [0x10, 0, 0, 3, 0,
   79, 76, 68, 32, 32, 32, 32, 32, 68, 65, 84,
   0, 0, 0, 0, 1, 0, 1, 0, 0xFF, 0, 0, 0, 0, 0, 0, 0]

/-- Variant of the base disk for the `write_file` failure analysis: every
granule is allocated (GAT all `0xFE`); the directory holds `BOOT/SYS` and
`OLD/DAT`, the latter owning granule 0 of track 1. -/
def storeC5 : List ((Nat × Nat × Nat) × List Nat) :=
  ((List.range 10).map fun s => ((0, 0, s), zsec)) ++
  ((List.range 10).map fun s => ((1, 0, s), zsec)) ++
  [((2, 0, 0), List.replicate 256 0xFE), ((2, 0, 1), zsec),
   ((2, 0, 2), bootEntry ++ oldEntry ++ List.replicate 192 0)] ++
  ((List.range' 3 7).map fun s => ((2, 0, s), zsec))

/-- A tiny two-sector JV1 image for the sector-level round-trip witness. -/
def jv1img : List Nat := List.replicate 512 3

/-- JV3 image exercising the free-slot walk: a free record
(track byte `0xFF`, flags size code 0) followed by its 128-byte payload,
then an occupied record for track 1, sector 2, followed by 256 data bytes. -/
def jv3img : List Nat :=
  [0xFF, 0, 0] ++ List.replicate 128 0 ++ [1, 2, 0] ++ List.replicate 256 0

/-- DMK image with one track (declared track length 200): the 16-byte
header, an IDAM pointer table whose single entry points at in-track offset
128, the IDAM (cylinder 0, sector 1), a data address mark `0xFB`, and the
256-byte payload. -/
def dmkimg : List Nat :=
  List.replicate 16 0 ++ [0x80, 0] ++ List.replicate 126 0 ++
    [0xFE, 0, 0, 1, 0, 0, 0, 0xFB] ++ List.replicate 256 7


/-- A directory slot matches: it survives the scan's skip test and decodes
to the requested `"NAME/EXT"`. -/
def wouldMatch (d filename : List Nat) (j : Nat) : Bool :=
  !entrySkipped (pySlice d (j * 32) (j * 32 + 32)) &&
    (entryFullName (pySlice d (j * 32) (j * 32 + 32)) == filename)

/-- Some slot of directory sector `sec` matches `filename`. -/
def sectorHasMatch {σ : Type} (ops : DiskOps σ) (cfg : FSConfig) (st : σ)
    (filename : List Nat) (sec : Nat) : Bool :=
  match ops.read_sector st cfg.dir_track 0 sec with
  | none => false
  | some d =>
    if d.isEmpty then false
    else (List.range 8).any (wouldMatch d filename)

/-- Variant of the base disk with a single free granule (granule 0 of
track 1): GAT byte 2 is `0xFF`, everything else reserved. -/
def store1 : List ((Nat × Nat × Nat) × List Nat) :=
  ((List.range 10).map fun s => ((0, 0, s), zsec)) ++
  ((List.range 10).map fun s => ((1, 0, s), zsec)) ++
  [((2, 0, 0), [0xFE, 0xFE, 0xFF, 0xFE, 0xFE, 0xFE] ++ List.replicate 250 0xFE),
   ((2, 0, 1), zsec),
   ((2, 0, 2), bootEntry ++ List.replicate 224 0)] ++
  ((List.range' 3 7).map fun s => ((2, 0, s), zsec))

/-- A GAT with six single-granule free runs on six distinct non-reserved
tracks (granule 0 of tracks 1, 3, 4, 5, 6, 7), for the fragmentation
failure. -/
def gatFrag : List Nat :=
  [0xFE, 0xFE, 0xFF, 0xFE, 0xFE, 0xFE, 0xFF, 0xFE, 0xFF, 0xFE, 0xFF, 0xFE,
   0xFF, 0xFE, 0xFF, 0xFE] ++ List.replicate 240 0xFE

/-- The dual-EOF file-size rule in the words of the specification, for
comparison with the source's `fileSizeOf`: if entry byte 3 is zero the size
is `(total_sectors_allocated - 1) * 256 + (((byte21 << 8) | byte20) + 1)`
when at least one sector is allocated and 0 otherwise; if byte 3 is nonzero
the size is `((byte21 << 16) | (byte20 << 8) | byte3) - 255`. -/
def specFileSize (entry : List Nat) (spg : Nat) : Int :=
  if entry.getD 3 0 = 0 then
    if 0 < totalSectorsAllocated entry spg then
      ((totalSectorsAllocated entry spg : Int) - 1) * 256 +
        ((((entry.getD 21 0 <<< 8) ||| entry.getD 20 0 : Nat) : Int) + 1)
    else 0
  else
    (((entry.getD 21 0 <<< 16) ||| (entry.getD 20 0 <<< 8) |||
      entry.getD 3 0 : Nat) : Int) - 255

/-! ## Helper lemmas -/

theorem take_drop_min (m : List Nat) (n : Nat) :
    m.take n ++ m.drop (min n m.length) = m := by
  rcases le_or_lt n m.length with h | h
  · rw [min_eq_left h, List.take_append_drop]
  · rw [min_eq_right (le_of_lt h), List.drop_length, List.append_nil,
      List.take_of_length_le (le_of_lt h)]

/-- Writing back a slice over the place it was read from is the identity:
Python `l[pos:pos+n] = l[pos:pos+n]` leaves `l` unchanged. -/
theorem pySplice_pySlice (l : List Nat) (pos n : Nat) :
    pySplice l pos (pySlice l pos (pos + n)) = l := by
  unfold pySplice pySlice
  have h1 : pos + n - pos = n := by omega
  rw [h1, List.length_take, ← List.drop_drop, List.append_assoc, take_drop_min,
    List.take_append_drop]

theorem length_pySlice (l : List Nat) (a b : Nat) :
    (pySlice l a b).length = min (b - a) (l.length - a) := by
  simp [pySlice]

theorem getD_set_ne (l : List Nat) (i j v d : Nat) (h : j ≠ i) :
    (l.set i v).getD j d = l.getD j d := by
  simp only [List.getD_eq_getElem?_getD, List.getElem?_set]
  rw [if_neg (fun he => h he.symm)]

/-! ## Claim theorems -/

set_option maxRecDepth 20000

/-- C8: for every CHS address for which `read_sector` returns a payload,
writing exactly that payload back with `write_sector` leaves the in-memory
image buffer byte-for-byte unchanged, for the JV1, DMK and JV3 handlers. -/
theorem claim_C8 :
    (∀ (data : List Nat) (track side sector : Nat) (p : List Nat),
      JV1Image.read_sector data track side sector = some p →
      JV1Image.write_sector data track side sector p = (true, data)) ∧
    (∀ (data : List Nat) (track_len : Nat) (ss : Bool)
        (track side sector : Nat) (p : List Nat),
      DMKImage.read_sector data track_len ss track side sector = some p →
      (DMKImage.write_sector data track_len ss track side sector p).2 = data) ∧
    (∀ (data : List Nat) (track side sector : Nat) (p : List Nat),
      JV3Image.read_sector data track side sector = some p →
      (JV3Image.write_sector data track side sector p).2 = data) := by
  refine ⟨?_, ?_, ?_⟩
  · intro data track side sector p h
    simp only [JV1Image.read_sector] at h
    split_ifs at h with h1 h2 h3
    rw [Option.some_inj] at h
    have hlen : p.length = 256 := by
      rw [← h, length_pySlice]; omega
    simp only [JV1Image.write_sector]
    rw [if_neg h1, if_neg h2, if_neg (by rw [hlen]; omega), if_neg h3, ← h,
      pySplice_pySlice]
  · intro data track_len ss track side sector p h
    simp only [DMKImage.read_sector, Option.map_eq_some'] at h
    obtain ⟨ds, hds, hp⟩ := h
    simp only [DMKImage.write_sector]
    by_cases hlen : p.length ≠ 256
    · rw [if_pos hlen]
    · rw [if_neg hlen, hds, ← hp]
      exact pySplice_pySlice data ds 256
  · intro data track side sector p _
    rfl

/-- C8 witness: the round trip evaluated on the concrete JV1 and DMK
images. -/
theorem claim_C8_witness :
    JV1Image.read_sector jv1img 0 0 1 = some (List.replicate 256 3) ∧
    JV1Image.write_sector jv1img 0 0 1 (List.replicate 256 3) = (true, jv1img) ∧
    DMKImage.read_sector dmkimg 200 true 0 0 1 = some (List.replicate 256 7) ∧
    (DMKImage.write_sector dmkimg 200 true 0 0 1 (List.replicate 256 7)).2 =
      dmkimg := by
  have h1 : JV1Image.read_sector jv1img 0 0 1 = some (List.replicate 256 3) := by
    decide
  have h2 : DMKImage.read_sector dmkimg 200 true 0 0 1 =
      some (List.replicate 256 7) := by decide
  exact ⟨h1, claim_C8.1 _ _ _ _ _ h1, h2, claim_C8.2.1 _ _ _ _ _ _ _ h2⟩

/-- C7 counterexample: on a JV3 image, `write_sector` does not return the
sector-write-refused result `False`; the call raises `NotImplementedError`
(inherited from the abstract base class). -/
theorem claim_C7_counterexample :
    (JV3Image.write_sector jv3img 1 0 2 (List.replicate 256 0)).1 ≠
      JV3Image.PyOutcome.ret false := by
  decide

/-- C7 amended: for every address and payload, `write_sector` on a JV3
image raises `NotImplementedError` (rather than returning `False`) and
leaves the image buffer unchanged. -/
theorem claim_C7_amended (data : List Nat) (track side sector : Nat)
    (payload : List Nat) :
    JV3Image.write_sector data track side sector payload =
      (JV3Image.PyOutcome.notImplementedError, data) :=
  rfl

/-- C9: a file is classified as DMK iff its name ends in `.dmk`
(case-insensitively) and header byte 1 and header bytes 2-3 (little-endian)
are in range; everything else is handled as JV1.  The hypothesis reflects
that `detect_format` reads header bytes 1-3, which exist whenever the file
has at least 4 bytes. -/
theorem claim_C9 (filename header : List Nat) (h : 4 ≤ header.length) :
    (detect_format filename header = DetectOut.dmk ↔
      (endsWithDmkLower filename = true ∧
        0 < header.getD 1 0 ∧ header.getD 1 0 ≤ 100 ∧
        0 < header.getD 2 0 + ((header.getD 3 0) <<< 8) ∧
        header.getD 2 0 + ((header.getD 3 0) <<< 8) < 20000)) ∧
    (detect_format filename header ≠ DetectOut.dmk →
      detect_format filename header = DetectOut.jv1) := by
  have h4 : ¬ header.length < 4 := by omega
  simp only [detect_format, h4, if_false]
  by_cases hdmk : endsWithDmkLower filename
  · simp only [hdmk, if_true]
    by_cases hn : 0 < header.getD 1 0 ∧ header.getD 1 0 ≤ 100 ∧
        0 < header.getD 2 0 + ((header.getD 3 0) <<< 8) ∧
        header.getD 2 0 + ((header.getD 3 0) <<< 8) < 20000
    · simp [hn]
    · simp [hn]
  · simp [hdmk]

/-- C9 witness: a 40-track DMK header is accepted; the same header under a
`.dsk` name falls through to JV1. -/
theorem claim_C9_witness :
    detect_format [116, 101, 115, 116, 46, 100, 109, 107] [0, 40, 0, 25] =
      DetectOut.dmk ∧
    detect_format [116, 101, 115, 116, 46, 100, 115, 107] [0, 40, 0, 25] =
      DetectOut.jv1 := by
  constructor
  · exact (claim_C9 _ _ (by decide)).1.mpr (by decide)
  · exact (claim_C9 _ _ (by decide)).2 (by decide)

/-- C6 counterexample: in the JV3 walker, a free slot with size code 0
advances by `3 + 128` bytes, not by `3 + 256` as the claim's mapping
requires: on `jv3img` the occupied record is registered at offset
`134 = 0 + (3 + 128) + 3`, and nothing is registered where the claimed
advance `0 + (3 + 256) + 3 = 262` would have put it. -/
theorem claim_C6_counterexample :
    (JV3Image.sector_map jv3img).lookup (1, 0, 2) = some 134 ∧
    (JV3Image.sector_map jv3img).lookup (0, 0, 0) = none ∧
    (134 : Nat) ≠ 262 := by
  decide

/-- C6 amended: a free slot (track byte `0xFF`) advances the walker by its
3-byte header plus `128 << size_code` bytes (`{0→128, 1→256, 2→512,
3→1024}`), while an occupied record advances by 3 plus the
`{0→256, 1→128, 2→1024, 3→512}` table and registers its payload offset. -/
theorem claim_C6_amended (data : List Nat) (fuel offset : Nat)
    (m : List ((Nat × Nat × Nat) × Nat))
    (_h1 : offset < data.length) (h2 : offset + 3 ≤ data.length) :
    (data.getD offset 0 = 0xFF →
      JV3Image.parseLoop data (fuel + 1) offset m =
        JV3Image.parseLoop data fuel
          (offset + 3 + (128 <<< (data.getD (offset + 2) 0 &&& 0x03))) m) ∧
    (data.getD offset 0 ≠ 0xFF →
      JV3Image.parseLoop data (fuel + 1) offset m =
        JV3Image.parseLoop data fuel
          (offset + 3 +
            JV3Image.sizeCodeLen (data.getD (offset + 2) 0 &&& 0x03))
          (JV3Image.mapInsert m
            (data.getD offset 0, ((data.getD (offset + 2) 0) >>> 4) &&& 1,
              data.getD (offset + 1) 0)
            (offset + 3))) := by
  have hA : ¬ data.length ≤ offset := by omega
  have hB : ¬ data.length < offset + 3 := by omega
  constructor
  · intro htrack
    simp only [JV3Image.parseLoop, hA, if_false, hB, htrack, if_true]
  · intro htrack
    simp only [JV3Image.parseLoop, hA, if_false, hB, htrack, if_true]

/-- C6 witness: the two step rules applied on the concrete JV3 image — the
free slot at offset 0 advances to offset 131; the occupied record at 131
registers `(1, 0, 2) ↦ 134` and advances to 390. -/
theorem claim_C6_witness :
    JV3Image.parseLoop jv3img 390 0 [] =
      JV3Image.parseLoop jv3img 389 131 [] ∧
    JV3Image.parseLoop jv3img 389 131 [] =
      JV3Image.parseLoop jv3img 388 390 [((1, 0, 2), 134)] := by
  constructor
  · exact (claim_C6_amended jv3img 389 0 [] (by decide) (by decide)).1
      (by decide)
  · exact (claim_C6_amended jv3img 388 131 [] (by decide) (by decide)).2
      (by decide)

/-! ## Allocation invariants (C4) -/

/-- Invariant of the first-fit GAT scan: positions whose derived track is 0
or the directory track are never touched, every closed extent lies on a
track other than 0 and the directory track, and an open run's track does
too. -/
theorem allocLoop_spec (dt gpt : Nat) :
    ∀ (fuel i : Nat) (gat : List Nat) (exts : List (Nat × Nat × Nat))
      (ct cs : Int) (cc : Nat) (needed : Int),
      (∀ e ∈ exts, e.1 ≠ 0 ∧ e.1 ≠ dt) →
      (0 < cc → ct.toNat ≠ 0 ∧ ct.toNat ≠ dt) →
      ∀ gat2 exts2 ct2 cs2 cc2 needed2,
        allocLoop dt gpt fuel i gat exts ct cs cc needed =
          AllocOut.done gat2 exts2 ct2 cs2 cc2 needed2 →
        (∀ j, j / gpt = 0 ∨ j / gpt = dt → gat2.getD j 0 = gat.getD j 0) ∧
        (∀ e ∈ exts2, e.1 ≠ 0 ∧ e.1 ≠ dt) ∧
        (0 < cc2 → ct2.toNat ≠ 0 ∧ ct2.toNat ≠ dt) := by
  intro fuel
  induction fuel with
  | zero =>
    intro i gat exts ct cs cc needed hexts hct gat2 exts2 ct2 cs2 cc2 needed2 h
    simp only [allocLoop] at h
    cases h
    exact ⟨fun j _ => rfl, hexts, hct⟩
  | succ fuel ih =>
    intro i gat exts ct cs cc needed hexts hct gat2 exts2 ct2 cs2 cc2 needed2 h
    simp only [allocLoop] at h
    by_cases hA : gat.length ≤ i
    · rw [if_pos hA] at h; cases h; exact ⟨fun j _ => rfl, hexts, hct⟩
    rw [if_neg hA] at h
    by_cases hdt : i / gpt = dt
    · rw [if_pos hdt] at h; exact ih _ _ _ _ _ _ _ hexts hct _ _ _ _ _ _ h
    rw [if_neg hdt] at h
    by_cases h0 : i / gpt = 0
    · rw [if_pos h0] at h; exact ih _ _ _ _ _ _ _ hexts hct _ _ _ _ _ _ h
    rw [if_neg h0] at h
    have hne : ∀ j, j / gpt = 0 ∨ j / gpt = dt → j ≠ i := by
      intro j hj he
      subst he
      rcases hj with hj | hj
      · exact h0 hj
      · exact hdt hj
    have hpres : ∀ j, j / gpt = 0 ∨ j / gpt = dt →
        (gat.set i 0xFE).getD j 0 = gat.getD j 0 := fun j hj =>
      getD_set_ne gat i j 0xFE 0 (hne j hj)
    by_cases hfree : gat.getD i 0 = 0xFF
    swap
    · rw [if_neg hfree] at h; exact ih _ _ _ _ _ _ _ hexts hct _ _ _ _ _ _ h
    rw [if_pos hfree] at h
    have hctnew : 0 < 1 → (((i / gpt : Nat) : Int)).toNat ≠ 0 ∧
        (((i / gpt : Nat) : Int)).toNat ≠ dt := by
      intro _
      exact ⟨h0, hdt⟩
    by_cases hcontig : ct = ((i / gpt : Nat) : Int) ∧
        cs + (cc : Int) = ((i % gpt : Nat) : Int)
    · rw [if_pos hcontig] at h
      have hct2 : 0 < cc + 1 → ct.toNat ≠ 0 ∧ ct.toNat ≠ dt := by
        intro _
        rw [hcontig.1]
        exact ⟨h0, hdt⟩
      by_cases hn : needed - 1 = 0
      · rw [if_pos hn] at h; cases h
        exact ⟨hpres, hexts, hct2⟩
      · rw [if_neg hn] at h
        obtain ⟨P1, P2, P3⟩ := ih _ _ _ _ _ _ _ hexts hct2 _ _ _ _ _ _ h
        exact ⟨fun j hj => (P1 j hj).trans (hpres j hj), P2, P3⟩
    · rw [if_neg hcontig] at h
      by_cases hcc : 0 < cc
      · rw [if_pos hcc] at h
        have hexts2 : ∀ e ∈ exts ++ [(ct.toNat, cs.toNat, cc)],
            e.1 ≠ 0 ∧ e.1 ≠ dt := by
          intro e he
          rcases List.mem_append.mp he with he | he
          · exact hexts e he
          · rw [List.mem_singleton.mp he]
            exact hct hcc
        by_cases h5 : 5 ≤ (exts ++ [(ct.toNat, cs.toNat, cc)]).length
        · rw [if_pos h5] at h
          by_cases hpos : 0 < needed
          · rw [if_pos hpos] at h; cases h
          · rw [if_neg hpos] at h; cases h
            exact ⟨fun j _ => rfl, hexts2, hct⟩
        · rw [if_neg h5] at h
          by_cases hn : needed - 1 = 0
          · rw [if_pos hn] at h; cases h
            exact ⟨hpres, hexts2, hctnew⟩
          · rw [if_neg hn] at h
            obtain ⟨P1, P2, P3⟩ := ih _ _ _ _ _ _ _ hexts2 hctnew _ _ _ _ _ _ h
            exact ⟨fun j hj => (P1 j hj).trans (hpres j hj), P2, P3⟩
      · rw [if_neg hcc] at h
        by_cases hn : needed - 1 = 0
        · rw [if_pos hn] at h; cases h
          exact ⟨hpres, hexts, hctnew⟩
        · rw [if_neg hn] at h
          obtain ⟨P1, P2, P3⟩ := ih _ _ _ _ _ _ _ hexts hctnew _ _ _ _ _ _ h
          exact ⟨fun j hj => (P1 j hj).trans (hpres j hj), P2, P3⟩

/-- C4: the allocation performed by `write_file` never reserves a GAT
position whose derived track is 0 (boot) or the directory track — a
successful allocation leaves every such GAT byte unchanged — and no
allocated extent lies on track 0 or the directory track. -/
theorem claim_C4 (dt gpt : Nat) (gat : List Nat) (needed : Int)
    (exts : List (Nat × Nat × Nat)) (gat2 : List Nat)
    (h : allocate dt gpt gat needed = AllocResult.ok exts gat2) :
    (∀ j, j / gpt = 0 ∨ j / gpt = dt → gat2.getD j 0 = gat.getD j 0) ∧
    (∀ e ∈ exts, e.1 ≠ 0 ∧ e.1 ≠ dt) := by
  unfold allocate at h
  cases hl : allocLoop dt gpt gat.length 0 gat [] (-1) (-1) 0 needed with
  | frag => rw [hl] at h; cases h
  | done gat3 exts3 ct3 cs3 cc3 needed3 =>
    rw [hl] at h
    obtain ⟨P1, P2, P3⟩ := allocLoop_spec dt gpt gat.length 0 gat [] (-1) (-1)
      0 needed (by simp) (by omega) gat3 exts3 ct3 cs3 cc3 needed3 hl
    simp only [] at h
    by_cases hpos : 0 < needed3
    · rw [if_pos hpos] at h; cases h
    · rw [if_neg hpos] at h
      cases h
      refine ⟨P1, ?_⟩
      by_cases hcc : 0 < cc3
      · simp only [if_pos hcc]
        intro e he
        rcases List.mem_append.mp he with he | he
        · exact P2 e he
        · rw [List.mem_singleton.mp he]
          exact P3 hcc
      · simp only [if_neg hcc]
        exact P2

/-- C4 witness: allocating one granule on the base GAT with directory
track 2 reserves granule 0 of track 1 and leaves the GAT bytes of track 0
(position 0) and of the directory track (position 4) unchanged. -/
theorem claim_C4_witness :
    allocate 2 2 gat0 1 = AllocResult.ok [(1, 0, 1)] (gat0.set 2 0xFE) ∧
    (gat0.set 2 0xFE).getD 0 0 = gat0.getD 0 0 ∧
    (gat0.set 2 0xFE).getD 4 0 = gat0.getD 4 0 := by
  have h : allocate 2 2 gat0 1 = AllocResult.ok [(1, 0, 1)] (gat0.set 2 0xFE) := by
    decide
  have hs := claim_C4 2 2 gat0 1 _ _ h
  exact ⟨h, hs.1 0 (Or.inl (by decide)), hs.1 4 (Or.inr (by decide))⟩

/-! ## Failure atomicity of `write_file` (C5) -/

/-- The only exception the directory-entry assignments can raise is
`IndexError`. -/
theorem pySets_error (d : List Nat) (sets : List (Nat × Nat)) (e : FsErr)
    (h : pySets d sets = Except.error e) : e = FsErr.indexError := by
  induction sets generalizing d with
  | nil => simp [pySets] at h
  | cons s rest ih =>
    obtain ⟨i, v⟩ := s
    simp only [pySets] at h
    by_cases hi : i < d.length
    · rw [if_pos hi] at h
      exact ih _ h
    · rw [if_neg hi] at h
      cases h
      rfl

/-- If the allocation step fails with too-fragmented or disk-full, the
raise happens before any sector write: the image state is untouched. -/
theorem writeFileAlloc_fail {σ : Type} (ops : DiskOps σ) (cfg : FSConfig)
    (st1 : σ) (nameP extP content : List Nat) (slotSec off : Nat)
    (gatSec : List Nat)
    (h : (writeFileAlloc ops cfg st1 nameP extP content slotSec off gatSec).1 =
        Except.error FsErr.tooFragmented ∨
      (writeFileAlloc ops cfg st1 nameP extP content slotSec off gatSec).1 =
        Except.error FsErr.diskFull) :
    (writeFileAlloc ops cfg st1 nameP extP content slotSec off gatSec).2 =
      st1 := by
  obtain ⟨X, hX, h⟩ : ∃ X, (X = FsErr.tooFragmented ∨ X = FsErr.diskFull) ∧
      (writeFileAlloc ops cfg st1 nameP extP content slotSec off gatSec).1 =
        Except.error X := by
    rcases h with h | h
    · exact ⟨_, Or.inl rfl, h⟩
    · exact ⟨_, Or.inr rfl, h⟩
  simp only [writeFileAlloc] at h ⊢
  split at h
  · rfl
  · rfl
  · rename_i exts gat2 heq
    exfalso
    split at h
    · rcases hX with rfl | rfl <;> simp at h
    · rename_i d hrd
      split at h
      · rename_i e heq2
        have he := pySets_error _ _ _ heq2
        subst he
        rcases hX with rfl | rfl <;> simp at h
      · rcases hX with rfl | rfl <;> simp at h

/-- When the directory scan finds no matching entry, `delete_file` returns
`False` and performs no write at all. -/
theorem delete_notFound {σ : Type} (ops : DiskOps σ) (cfg : FSConfig) (st : σ)
    (filename : List Nat) (h : find_target ops cfg st filename = none) :
    delete_file ops cfg st filename = (Except.ok false, st) := by
  unfold delete_file
  rw [h]

/-- Failure atomicity of the create part of `write_file`. -/
theorem writeAfterDelete_fail {σ : Type} (ops : DiskOps σ) (cfg : FSConfig)
    (st1 : σ) (filename content : List Nat)
    (h : (writeFileAfterDelete ops cfg st1 filename content).1 =
        Except.error FsErr.tooFragmented ∨
      (writeFileAfterDelete ops cfg st1 filename content).1 =
        Except.error FsErr.diskFull) :
    (writeFileAfterDelete ops cfg st1 filename content).2 = st1 := by
  simp only [writeFileAfterDelete] at h ⊢
  split at h
  · rfl
  · rename_i slotSec off heq
    split at h
    · rename_i hcond
      rw [if_pos hcond]
    · rename_i hcond
      rw [if_neg hcond]
      exact writeFileAlloc_fail ops cfg st1 _ _ content slotSec off _ h

/-- C5 amended: when the filename matches no existing directory entry, a
`write_file` call that fails with the too-fragmented error (five extents
closed while granules are still needed) or the disk-full error (the scan
ends with granules still needed) creates no directory entry and writes
nothing to the disk: the image state after the failed call equals the state
before it.  (When a file of the same name already existed, the initial
embedded `delete_file` has already freed its granules in the GAT and
persisted that change before the failure — see the counterexample.) -/
theorem claim_C5_amended_thm {σ : Type} (ops : DiskOps σ) (cfg : FSConfig)
    (st : σ) (filename content : List Nat)
    (hfind : find_target ops cfg st filename = none)
    (herr : (write_file ops cfg st filename content).1 =
        Except.error FsErr.tooFragmented ∨
      (write_file ops cfg st filename content).1 =
        Except.error FsErr.diskFull) :
    (write_file ops cfg st filename content).2 = st := by
  have hdel := delete_notFound ops cfg st filename hfind
  have hw : write_file ops cfg st filename content =
      writeFileAfterDelete ops cfg st filename content := by
    unfold write_file
    rw [hdel]
  rw [hw] at herr ⊢
  exact writeAfterDelete_fail ops cfg st filename content herr

/-! ## Not-found atomicity of `delete_file` (C10) -/


theorem findEntryInSector_none (d filename : List Nat) (js : List Nat)
    (h : ∀ j ∈ js, wouldMatch d filename j = false) :
    findEntryInSector d filename js = none := by
  induction js with
  | nil => rfl
  | cons j rest ih =>
    have hj := h j (List.mem_cons_self j rest)
    simp only [findEntryInSector]
    cases hs : entrySkipped (pySlice d (j * 32) (j * 32 + 32)) with
    | true =>
      rw [if_pos rfl]
      exact ih fun x hx => h x (List.mem_cons_of_mem _ hx)
    | false =>
      have hj2 : (entryFullName (pySlice d (j * 32) (j * 32 + 32)) ==
          filename) = false := by
        simpa [wouldMatch, hs] using hj
      have hname : ¬ entryFullName (pySlice d (j * 32) (j * 32 + 32)) =
          filename := by
        intro he
        rw [he] at hj2
        simp at hj2
      rw [if_neg (by simp), if_neg hname]
      exact ih fun x hx => h x (List.mem_cons_of_mem _ hx)

theorem findTargetLoop_none {σ : Type} (ops : DiskOps σ) (cfg : FSConfig)
    (st : σ) (filename : List Nat) (secs : List Nat)
    (h : ∀ sec ∈ secs, sectorHasMatch ops cfg st filename sec = false) :
    findTargetLoop ops cfg st filename secs = none := by
  induction secs with
  | nil => rfl
  | cons sec rest ih =>
    have hsec := h sec (List.mem_cons_self sec rest)
    simp only [findTargetLoop]
    cases hrd : ops.read_sector st cfg.dir_track 0 sec with
    | none => exact ih fun x hx => h x (List.mem_cons_of_mem _ hx)
    | some d =>
      simp only [sectorHasMatch, hrd] at hsec
      dsimp only
      cases he : d.isEmpty with
      | true =>
        rw [if_pos rfl]
        exact ih fun x hx => h x (List.mem_cons_of_mem _ hx)
      | false =>
        rw [if_neg (by simp [he])]
        have hany : (List.range 8).any (wouldMatch d filename) = false := by
          rwa [if_neg (by simp [he])] at hsec
        have hnone := findEntryInSector_none d filename (List.range 8)
          (fun j hj => Bool.eq_false_iff.mpr ((List.any_eq_false.mp hany) j hj))
        rw [hnone]
        exact ih fun x hx => h x (List.mem_cons_of_mem _ hx)

/-- C10: for every filename that matches no in-use directory entry in the
scan range, `delete_file` returns the not-found result `False` and leaves
the image state byte-for-byte unchanged — no GAT byte freed, no directory
byte cleared, no save performed. -/
theorem claim_C10_thm {σ : Type} (ops : DiskOps σ) (cfg : FSConfig) (st : σ)
    (filename : List Nat)
    (h : ∀ sec ∈ sectorRange cfg,
      sectorHasMatch ops cfg st filename sec = false) :
    delete_file ops cfg st filename = (Except.ok false, st) :=
  delete_notFound ops cfg st filename
    (findTargetLoop_none ops cfg st filename (sectorRange cfg) h)

/-- C10 witness: deleting the absent `NEW/DAT` on the base disk returns
`False` and leaves the store unchanged. -/
theorem claim_C10_witness :
    (∀ sec ∈ sectorRange cfg0,
      sectorHasMatch storeOps cfg0 store0 newName sec = false) ∧
    delete_file storeOps cfg0 store0 newName = (Except.ok false, store0) := by
  have h : ∀ sec ∈ sectorRange cfg0,
      sectorHasMatch storeOps cfg0 store0 newName sec = false := by decide
  exact ⟨h, claim_C10_thm storeOps cfg0 store0 newName h⟩

/-! ## Concrete claim theorems over the three-track disk -/

/-- C2: the file size decoded by `read_file` and `list_files` follows the
dual-EOF rule exactly as the specification states it, and on the concrete
entry with bytes 3/20/21 = 0/0x34/0x00 and one 1-granule extent
(5 sectors per granule) the reported size is
`(5 - 1) * 256 + (0x34 + 1) = 1077`, both in the `list_files` record and in
the number of bytes `read_file` returns. -/
theorem claim_C2_thm :
    (∀ (entry : List Nat) (spg : Nat),
      fileSizeOf entry spg = specFileSize entry spg) ∧
    (list_files storeOps cfg0 store0).map (fun r => (r.name, r.size)) =
      [(bootName, 1077)] ∧
    (read_file storeOps cfg0 store0 bootName).map List.length = some 1077 := by
  refine ⟨fun entry spg => rfl, by decide, by decide⟩

/-- C1 failing input: on the freshly formatted base disk,
`write_file("TEST/TXT", b"HELLO")` succeeds, but reading the file back
returns only the 4 bytes `b"HELL"`, and `list_files` reports size 4 for the
5-byte payload: the EOF written as `raw_eof = (len - 1) + 255` is decoded as
`raw_eof - 255 = len - 1`, an off-by-one that breaks the write/read round
trip. -/
theorem claim_C1_bug :
    (write_file storeOps cfg0 store0 testName helloBytes).1 =
      Except.ok true ∧
    read_file storeOps cfg0
        (write_file storeOps cfg0 store0 testName helloBytes).2 testName =
      some [72, 69, 76, 76] ∧
    (list_files storeOps cfg0
        (write_file storeOps cfg0 store0 testName helloBytes).2).map
        (fun r => (r.name, r.size)) =
      [(bootName, 1077), (testName, 4)] ∧
    helloBytes.length = 5 := by
  exact ⟨by decide, by decide, by decide, by decide⟩

/-- C3 counterexample: writing a 0-byte file emits a directory entry whose
EOF byte 3 is `0xFF`, not 0 as the claim's RBA format requires
(`rba = max(-1, 0) = 0`, `raw_eof = 255`, low byte `0xFF ≠ 0`, so the
offset format is used).  Byte 3 of the entry at offset 32 of directory
sector 2 is read back as 255. -/
theorem claim_C3_counterexample :
    (write_file storeOps cfg0 store1 emptyName []).1 = Except.ok true ∧
    (storeOps.read_sector (write_file storeOps cfg0 store1 emptyName []).2
        2 0 2).map (fun d => d.getD 35 0) = some 0xFF ∧
    (0xFF : Nat) ≠ 0 := by
  exact ⟨by decide, by decide, by decide⟩

/-- C3 amended: writing a 0-byte file and reading it back returns 0 bytes,
but the directory entry uses the offset-format EOF encoding with byte 3 =
`0xFF` and bytes 20 and 21 equal to 0 (`raw_eof = 255`, which decodes to
size `255 - 255 = 0`). -/
theorem claim_C3_amended :
    read_file storeOps cfg0 (write_file storeOps cfg0 store1 emptyName []).2
      emptyName = some [] ∧
    (storeOps.read_sector (write_file storeOps cfg0 store1 emptyName []).2
        2 0 2).map (fun d => (d.getD 35 0, d.getD 52 0, d.getD 53 0)) =
      some (0xFF, 0, 0) := by
  exact ⟨by decide, by decide⟩

/-- C5 counterexample: when a file of the same name already exists, a
failing `write_file` does update the on-disk GAT.  On the fully allocated
disk holding `OLD/DAT` (granule 0 of track 1, GAT byte 2 = `0xFE`),
`write_file("OLD/DAT", 1281 bytes)` fails with the disk-full error, yet the
embedded delete has already freed GAT byte 2 to `0xFF` and cleared the
directory entry's attribute byte, so the image state is not the pre-call
state. -/
theorem claim_C5_counterexample :
    (write_file storeOps cfg0 storeC5 oldName (List.replicate 1281 65)).1 =
      Except.error FsErr.diskFull ∧
    (storeOps.read_sector
        (write_file storeOps cfg0 storeC5 oldName
          (List.replicate 1281 65)).2 2 0 0).map (fun d => d.getD 2 0) =
      some 0xFF ∧
    (storeOps.read_sector storeC5 2 0 0).map (fun d => d.getD 2 0) =
      some 0xFE ∧
    (storeOps.read_sector
        (write_file storeOps cfg0 storeC5 oldName
          (List.replicate 1281 65)).2 2 0 2).map (fun d => d.getD 32 0) =
      some 0 ∧
    (storeOps.read_sector storeC5 2 0 2).map (fun d => d.getD 32 0) =
      some 0x10 := by
  exact ⟨by decide, by decide, by decide, by decide, by decide⟩

/-- C5 witness: on the fully allocated disk, writing the fresh name
`NEW/DAT` fails with disk-full (the scan ends with a granule still needed)
and leaves the image state unchanged, by the amended theorem; and on the
GAT with six single-granule free runs, an allocation needing six granules
fails with too-fragmented (the fifth extent closes while a granule is still
needed). -/
theorem claim_C5_witness :
    find_target storeOps cfg0 storeC5 newName = none ∧
    (write_file storeOps cfg0 storeC5 newName [65]).1 =
      Except.error FsErr.diskFull ∧
    (write_file storeOps cfg0 storeC5 newName [65]).2 = storeC5 ∧
    allocate 2 2 gatFrag 6 = AllocResult.tooFragmented := by
  have h1 : find_target storeOps cfg0 storeC5 newName = none := by decide
  have h2 : (write_file storeOps cfg0 storeC5 newName [65]).1 =
      Except.error FsErr.diskFull := by decide
  exact ⟨h1, h2,
    claim_C5_amended_thm storeOps cfg0 storeC5 newName [65] h1 (Or.inr h2),
    by decide⟩

end Trs80
